import Mathlib

/-! Shallow embedding of src/src/main.py, a Telegram video-download bot.

Conventions used throughout:
- A raised Python exception is modelled with Except: .error e is an exception
  whose str() is e.
- External effects (yt_dlp, the filesystem, the Telegram API) are modelled by
  oracle records passed to the embedded functions; the source never inspects
  anything else about them.
- The observable behaviour of handle_message is returned as the updated users
  map together with a trace of Action values, listed in the order the
  corresponding calls are made in the source.
- Python str is modelled by String / List Char.  The regex character class
  for word characters and str.strip() are modelled at ASCII level, which is
  what every claim exercises. -/

namespace WebVideoTg

/-- Characters removed by Python str.strip() with no argument (ASCII part):
space, tab, newline, carriage return, vertical tab, form feed. -/
def pyIsSpace (c : Char) : Bool :=
  c = ' ' || c = '\t' || c = '\n' || c = '\r' || c = '\x0b' || c = '\x0c'

/-- Python str.strip() on a list of characters: drop whitespace from both ends. -/
def pyStripL (l : List Char) : List Char :=
  ((l.dropWhile pyIsSpace).reverse.dropWhile pyIsSpace).reverse

/-- Python str.strip() on strings. -/
def pyStrip (s : String) : String :=
  String.mk (pyStripL s.data)

/-- main.py line 59: valid_chars = f"-_.() {string.ascii_letters}{string.digits}". -/
def valid_chars : List Char :=
  "-_.() abcdefghijklmnopqrstuvwxyzABCDEFGHIJKLMNOPQRSTUVWXYZ0123456789".data

/-- main.py lines 58-61: keep only valid_chars, truncate to max_length
(Python default 50, always passed explicitly here), then strip both ends. -/
def sanitize_filename (filename : String) (max_length : Nat) : String :=
  String.mk (pyStripL ((filename.data.filter (fun c => valid_chars.contains c)).take max_length))

/-- os.path.basename: the part of the path after the last slash. -/
def pyBasename (p : String) : String :=
  String.mk ((p.data.reverse.takeWhile (fun c => c != '/')).reverse)

/-- Oracle for the external world seen by download_video and handle_message:
what yt_dlp does and what the filesystem answers.  fileSize is never consulted
by this source; it is included so that size-threshold properties can be stated. -/
structure ToolOracle where
  extractInfo : Except String String
  downloadRaises : Option String
  fileExists : String → Bool
  fileSize : String → Nat

/-- main.py lines 64-97.  The try block (lines 75-93) extracts the info,
sanitizes the basename of the prepared filename, joins it under "downloads",
runs the download, and returns final_path when os.path.exists(final_path) and
None otherwise; the except block (lines 95-97) catches every exception, logs
it, and returns None.  The result type Except String (Option String) lets us
state that no exception escapes the function. -/
def download_video (url : String) (tool : ToolOracle) : Except String (Option String) :=
  let tryBody : Except String (Option String) :=
    match tool.extractInfo with
    | .error e => .error e
    | .ok raw_filename =>
      let sanitized_name := sanitize_filename (pyBasename raw_filename) 50
      let final_path := "downloads/" ++ sanitized_name
      match tool.downloadRaises with
      | some e => .error e
      | none => .ok (if tool.fileExists final_path then some final_path else none)
  match tryBody with
  | .error _ => .ok none
  | .ok r => .ok r

/-- Telegram message-entity types; the source only distinguishes SPOILER. -/
inductive MEntityType where
  | spoiler
  | url
  | mention
  | other
deriving DecidableEq

/-- A Telegram message entity, as far as the source reads it. -/
structure MessageEntity where
  type : MEntityType
deriving DecidableEq

/-- main.py lines 100-101: any(entity.type == SPOILER for entity in entities)
if entities else False.  Both None and an empty tuple are falsy in Python. -/
def spoiler_in_message (entities : Option (List MessageEntity)) : Bool :=
  match entities with
  | none => false
  | some es => if es.isEmpty then false else es.any (fun e => e.type == MEntityType.spoiler)

/-- ASCII reading of the regex word-character class. -/
def isWordChar (c : Char) : Bool :=
  c.isAlpha || c.isDigit || c = '_'

/-- Characters allowed by the final one-or-more class of the link regex:
word characters, hyphen, slash, question mark, ampersand, equals. -/
def isPathChar (c : Char) : Bool :=
  isWordChar c || c = '-' || c = '/' || c = '?' || c = '&' || c = '='

/-- Match a literal at the front of s, returning the rest on success. -/
def isLitAt : List Char → List Char → Option (List Char)
  | [], s => some s
  | _ :: _, [] => none
  | c :: cs, d :: ds => if c = d then isLitAt cs ds else none

/-- Does pat occur at the front of s? -/
def startsWithL : List Char → List Char → Bool
  | [], _ => true
  | _ :: _, [] => false
  | c :: cs, d :: ds => (c == d) && startsWithL cs ds

/-- Does pat occur anywhere in s (Python substring test)? -/
def containsSub (pat : List Char) : List Char → Bool
  | [] => startsWithL pat []
  | c :: rest => startsWithL pat (c :: rest) || containsSub pat rest

/-- The four hostnames of the regex alternation, main.py line 105. -/
def domainStrings : List String :=
  ["instagram.com", "facebook.com", "youtube.com", "youtu.be"]

/-- The same hostnames as character lists. -/
def domainsL : List (List Char) :=
  domainStrings.map String.data

/-- One domain alternative followed by a slash and at least one path
character, matched at the current position. -/
def matchCore (s : List Char) : Bool :=
  domainsL.any (fun d =>
    match isLitAt d s with
    | none => false
    | some rest =>
      match rest with
      | '/' :: c :: _ => isPathChar c
      | _ => false)

/-- The optional www. group followed by the core. -/
def matchAfterScheme (s : List Char) : Bool :=
  matchCore s ||
  (match isLitAt "www.".data s with
   | some rest => matchCore rest
   | none => false)

/-- The optional scheme group followed by the rest of the pattern. -/
def matchHere (s : List Char) : Bool :=
  matchAfterScheme s ||
  (match isLitAt "http://".data s with
   | some rest => matchAfterScheme rest
   | none => false) ||
  (match isLitAt "https://".data s with
   | some rest => matchAfterScheme rest
   | none => false)

/-- re.search: does the pattern match at some position? -/
def reSearch : List Char → Bool
  | [] => matchHere []
  | c :: rest => matchHere (c :: rest) || reSearch rest

/-- main.py lines 104-106: bool(re.search(pattern, text)) for the pattern
(https?:\x2f\x2f)?(www\.)?(instagram\.com|facebook\.com|youtube\.com|youtu\.be)\x2f[word -\x2f?&=]+ . -/
def is_valid_link (text : String) : Bool :=
  reSearch text.data

/-- Does one of the four listed hostnames occur in the text? -/
def hasAnyDomain (text : String) : Bool :=
  domainsL.any (fun d => containsSub d text.data)

/-- Substring test on strings. -/
def strContains (pat s : String) : Bool :=
  containsSub pat.data s.data

/-- main.py line 124. -/
def welcomeText : String :=
  "👋 Welcome! Send a video link from Instagram, Facebook, or YouTube Shorts, and I\x27ll download it in best quality!"

/-- main.py line 131. -/
def invalidLinkText : String :=
  "⚠️ Invalid link! Please send a correct link."

/-- main.py line 134. -/
def processingText : String :=
  "🚀 Fetching the best quality video..."

/-- main.py line 141: the ValueError raised when download_video returned a
falsy value or the file does not exist. -/
def downloadFailText : String :=
  "Video download failed or file doesn\x27t exist."

/-- main.py line 144: the fixed part before the interpolated exception text. -/
def downloadErrorHead : String :=
  "❌ Error occurred while downloading the video: "

/-- main.py line 161. -/
def sendErrorText : String :=
  "❌ Error occurred while sending the video."

/-- Observable effects of one handle_message run, in source order.
saveUsers is the save_users(users) call with the whole map it writes;
downloadAttempt marks the download_video(message_text) call; transcode and
removeFile stand for invoking an external transcoder on a file and deleting a
local file — the source never performs either, and the constructors exist so
that their absence from every trace is statable. -/
inductive Action where
  | saveUsers (users : List String)
  | replyText (s : String)
  | downloadAttempt (url : String)
  | transcode (path : String)
  | sendVideo (path : String) (hasSpoiler : Bool) (disableNotification : Bool)
  | removeFile (path : String)
  | deleteProcessing
deriving DecidableEq

def isSaveUsers : Action → Bool
  | .saveUsers _ => true
  | _ => false

def isDownloadAttempt : Action → Bool
  | .downloadAttempt _ => true
  | _ => false

def isTranscode : Action → Bool
  | .transcode _ => true
  | _ => false

def isSendVideo : Action → Bool
  | .sendVideo _ _ _ => true
  | _ => false

def isRemoveFile : Action → Bool
  | .removeFile _ => true
  | _ => false

def isDeleteProcessing : Action → Bool
  | .deleteProcessing => true
  | _ => false

/-- Does this action reply with a text that contains pat as a substring? -/
def replyMentions (pat : String) : Action → Bool
  | .replyText s => strContains pat s
  | _ => false

/-- Oracle for the Telegram calls of the upload stage: whether
chat.send_video raises and whether processing_msg.delete raises. -/
structure TgOracle where
  sendRaises : Option String
  deleteRaises : Option String

/-- update.message, as far as the source reads it: text may be absent. -/
structure MessageData where
  text : Option String
  entities : Option (List MessageEntity)
deriving DecidableEq

/-- An incoming update: optional message plus effective user and chat ids. -/
structure Update where
  message : Option MessageData
  userId : Nat
  chatId : Int
deriving DecidableEq

/-- main.py lines 119-126: on first contact add str(user_id) to the users
map, persist it with save_users, and send the welcome reply. -/
def welcomeStep (uid : String) (users : List String) : List String × List Action :=
  if uid ∈ users then (users, [])
  else (users ++ [uid], [Action.saveUsers (users ++ [uid]), Action.replyText welcomeText])

/-- main.py lines 139-141, the body of the download try block: call
download_video, then raise ValueError when the result is falsy (None or the
empty string) or the path does not exist.  .error e is the exception the
enclosing except block catches. -/
def downloadStep (url : String) (tool : ToolOracle) : Except String String :=
  match download_video url tool with
  | .error e => .error e
  | .ok none => .error downloadFailText
  | .ok (some p) =>
    if p = "" then .error downloadFailText
    else if tool.fileExists p then .ok p else .error downloadFailText

/-- main.py lines 150-161: the send_video call is issued with the spoiler
flag and disable_notification=True; when it raises, the fixed send-error
reply follows. -/
def sendStep (path : String) (flag : Bool) (tg : TgOracle) : List Action :=
  match tg.sendRaises with
  | none => [Action.sendVideo path flag true]
  | some _ => [Action.sendVideo path flag true, Action.replyText sendErrorText]

/-- main.py lines 113-166 after the guards: strip the text, do first-contact
bookkeeping, validate the link, post the processing message, download, send,
and finally issue the processing-message delete (lines 162-166; its own
try/except swallows a delete failure, so the delete call itself is always
issued on this path).  On the invalid-link and download-failure paths the
handler returns early and the finally block of the send try is never
entered. -/
def handle_text (msg : MessageData) (rawText : String) (userId : Nat)
    (users : List String) (tool : ToolOracle) (tg : TgOracle) :
    List String × List Action :=
  let message_text := pyStrip rawText
  let uid := toString userId
  let users1 := (welcomeStep uid users).1
  let welcomeActs := (welcomeStep uid users).2
  if is_valid_link message_text = false then
    (users1, welcomeActs ++ [Action.replyText invalidLinkText])
  else
    match downloadStep message_text tool with
    | .error e =>
      (users1, welcomeActs ++
        [Action.replyText processingText, Action.downloadAttempt message_text,
         Action.replyText (downloadErrorHead ++ e)])
    | .ok video_path =>
      (users1, welcomeActs ++
        [Action.replyText processingText, Action.downloadAttempt message_text] ++
        sendStep video_path (spoiler_in_message msg.entities) tg ++
        [Action.deleteProcessing])

/-- main.py lines 109-166: the guard on lines 110-111 returns at once when
update.message is absent or message.text is falsy (None or the empty
string); otherwise the body runs. -/
def handle_message (update : Update) (users : List String)
    (tool : ToolOracle) (tg : TgOracle) : List String × List Action :=
  match update.message with
  | none => (users, [])
  | some msg =>
    match msg.text with
    | none => (users, [])
    | some rawText =>
      if rawText = "" then (users, [])
      else handle_text msg rawText update.userId users tool tg

/-- Run handle_message over a sequence of updates, each with its own
oracles, threading the users map and collecting the traces. -/
def runSeq : List (Update × ToolOracle × TgOracle) → List String → List String × List (List Action)
  | [], users => (users, [])
  | (u, tool, tg) :: rest, users =>
    let step := handle_message u users tool tg
    let next := runSeq rest step.1
    (next.1, step.2 :: next.2)

/-- A text message from user uid, i.e. one that passes the handler guard
(the handler is registered with filters.TEXT, so handled updates carry
non-empty text). -/
def goodFrom (uid : Nat) (u : Update) : Prop :=
  u.userId = uid ∧ ∃ md rawText, u.message = some md ∧ md.text = some rawText ∧ rawText ≠ ""

/-- True when neither end of the list is Python whitespace. -/
def noEdgeSpace (l : List Char) : Bool :=
  (match l.head? with
   | none => true
   | some c => !(pyIsSpace c)) &&
  (match l.getLast? with
   | none => true
   | some c => !(pyIsSpace c))

/-- Outcome of the permission gate. -/
inductive GateDecision where
  | dropSilently
  | replyDenialNotice
  | continueProcessing
deriving DecidableEq

/-- Modelled from the spec: the Permission Gate component of spec section 4.2
is absent from src/src/main.py (per spec section 1 it belongs to the other
near-duplicate pipeline variants of this repository, which are not under
src/).  Spec wording: "Checks membership in static allow/deny lists.  On
deny, silently drops the message in group chats, replies with a denial notice
in private chats."; non-denied senders continue processing. -/
def permission_gate (username : String) (chatId : Int)
    (denyUsernames : List String) (denyChatIds : List Int)
    (isGroupChat : Bool) : GateDecision :=
  if username ∈ denyUsernames ∨ chatId ∈ denyChatIds then
    if isGroupChat then GateDecision.dropSilently else GateDecision.replyDenialNotice
  else GateDecision.continueProcessing

/-- Fixture: a tool oracle for a run where everything succeeds; the
downloaded file is reported as 60000000 bytes, above 50 MB. -/
def cexToolOk : ToolOracle :=
  ⟨Except.ok "vid.mp4", none, fun _ => true, fun _ => 60000000⟩

/-- Fixture: a tool oracle where yt_dlp raises with text "boom". -/
def cexToolFail : ToolOracle :=
  ⟨Except.error "boom", none, fun _ => true, fun _ => 0⟩

/-- Fixture: Telegram calls all succeed. -/
def cexTg : TgOracle := ⟨none, none⟩

/-- Fixture: chat.send_video raises. -/
def cexTgRaise : TgOracle := ⟨some "network down", none⟩

/-- Fixture: a valid-link text message from user 5 (already in the users map
of the concrete runs below, so no welcome actions occur). -/
def cexUpdate : Update := ⟨some ⟨some "https://youtu.be/abc", none⟩, 5, 1⟩

/-- Fixture: the same valid-link message carrying a spoiler entity. -/
def cexUpdateSpoiler : Update :=
  ⟨some ⟨some "https://youtu.be/abc", some [⟨MEntityType.spoiler⟩]⟩, 5, 1⟩

/-- Fixture: an invalid-link text message from user 5. -/
def cexUpdateInvalid : Update := ⟨some ⟨some "hello world", none⟩, 5, 1⟩

/- ===================== Theorems ===================== -/

theorem download_video_ok (url : String) (tool : ToolOracle) :
    ∃ r, download_video url tool = Except.ok r := by
  unfold download_video
  cases hx : tool.extractInfo with
  | error e => exact ⟨none, rfl⟩
  | ok raw =>
    cases hd : tool.downloadRaises with
    | none => exact ⟨_, rfl⟩
    | some e => exact ⟨none, rfl⟩

theorem download_video_exists_of_some (url : String) (tool : ToolOracle) (p : String) :
    download_video url tool = Except.ok (some p) → tool.fileExists p = true := by
  intro h
  unfold download_video at h
  cases hx : tool.extractInfo with
  | error e => rw [hx] at h; simp at h
  | ok raw =>
    rw [hx] at h
    cases hd : tool.downloadRaises with
    | some e => rw [hd] at h; simp at h
    | none =>
      rw [hd] at h
      by_cases hf : tool.fileExists ("downloads/" ++ sanitize_filename (pyBasename raw) 50) = true
      · simp [hf] at h
        subst h
        exact hf
      · simp [hf] at h

/-- C9: download_video is total at its interface: it never propagates an
exception from the extraction tool (every run returns, modelled as
Except.ok), and whenever it returns a path the os.path.exists check on that
path succeeded at return time. -/
theorem c9_download_video_total (url : String) (tool : ToolOracle) :
    (∃ r, download_video url tool = Except.ok r) ∧
    (∀ p, download_video url tool = Except.ok (some p) → tool.fileExists p = true) :=
  ⟨download_video_ok url tool, fun p h => download_video_exists_of_some url tool p h⟩

theorem c9_witness :
    download_video "https://youtu.be/abc" cexToolOk = Except.ok (some "downloads/vid.mp4") ∧
    cexToolOk.fileExists "downloads/vid.mp4" = true :=
  ⟨rfl, (c9_download_video_total "https://youtu.be/abc" cexToolOk).2 "downloads/vid.mp4" rfl⟩

theorem dropWhile_head?_not {α : Type} (p : α → Bool) :
    ∀ (l : List α) (c : α), (l.dropWhile p).head? = some c → p c = false := by
  intro l
  induction l with
  | nil => intro c h; simp [List.dropWhile] at h
  | cons x xs ih =>
    intro c h
    rw [List.dropWhile_cons] at h
    by_cases hx : p x = true
    · rw [if_pos hx] at h
      exact ih c h
    · rw [if_neg hx] at h
      simp only [List.head?_cons, Option.some.injEq] at h
      rw [← h]
      simpa using hx

theorem dropWhile_getLast?_eq {α : Type} (p : α → Bool) :
    ∀ l : List α, l.dropWhile p ≠ [] → (l.dropWhile p).getLast? = l.getLast? := by
  intro l
  induction l with
  | nil => intro h; simp [List.dropWhile] at h
  | cons x xs ih =>
    intro h
    rw [List.dropWhile_cons] at h ⊢
    by_cases hx : p x = true
    · rw [if_pos hx] at h ⊢
      have hxs : xs ≠ [] := by
        intro he
        rw [he] at h
        simp [List.dropWhile] at h
      rw [ih h]
      cases xs with
      | nil => exact absurd rfl hxs
      | cons y ys => rw [List.getLast?_cons_cons]
    · rw [if_neg hx]

theorem pyStripL_mem (c : Char) (l : List Char) : c ∈ pyStripL l → c ∈ l := by
  intro h
  rw [pyStripL, List.mem_reverse] at h
  have h1 := (List.dropWhile_sublist pyIsSpace).subset h
  rw [List.mem_reverse] at h1
  exact (List.dropWhile_sublist pyIsSpace).subset h1

theorem pyStripL_length (l : List Char) : (pyStripL l).length ≤ l.length := by
  rw [pyStripL, List.length_reverse]
  have h1 := (List.dropWhile_sublist pyIsSpace (l := (l.dropWhile pyIsSpace).reverse)).length_le
  rw [List.length_reverse] at h1
  exact Nat.le_trans h1 (List.dropWhile_sublist pyIsSpace).length_le

theorem pyStripL_noEdgeSpace (l : List Char) : noEdgeSpace (pyStripL l) = true := by
  have hlast : ∀ c, (pyStripL l).getLast? = some c → pyIsSpace c = false := by
    intro c hc
    rw [pyStripL, List.getLast?_reverse] at hc
    exact dropWhile_head?_not pyIsSpace _ c hc
  have hhead : ∀ c, (pyStripL l).head? = some c → pyIsSpace c = false := by
    intro c hc
    rw [pyStripL, List.head?_reverse] at hc
    have hne : (l.dropWhile pyIsSpace).reverse.dropWhile pyIsSpace ≠ [] := by
      intro he
      rw [he] at hc
      simp at hc
    rw [dropWhile_getLast?_eq pyIsSpace _ hne, List.getLast?_reverse] at hc
    exact dropWhile_head?_not pyIsSpace _ c hc
  rcases hh : (pyStripL l).head? with _ | c
  · rcases hl : (pyStripL l).getLast? with _ | d
    · simp [noEdgeSpace, hh, hl]
    · simp [noEdgeSpace, hh, hl, hlast d hl]
  · rcases hl : (pyStripL l).getLast? with _ | d
    · simp [noEdgeSpace, hh, hl, hhead c hh]
    · simp [noEdgeSpace, hh, hl, hhead c hh, hlast d hl]

/-- C10: for every input string and bound, sanitize_filename returns a string
whose characters all come from valid_chars (ASCII letters, digits and
"-_.() "), whose length is at most max_length, and whose two ends are not
whitespace. -/
theorem c10_sanitize_filename (s : String) (max_length : Nat) :
    ((sanitize_filename s max_length).data.all (fun c => valid_chars.contains c)) = true ∧
    (sanitize_filename s max_length).data.length ≤ max_length ∧
    noEdgeSpace (sanitize_filename s max_length).data = true := by
  have hdata : (sanitize_filename s max_length).data
      = pyStripL ((s.data.filter (fun c => valid_chars.contains c)).take max_length) := rfl
  refine ⟨?_, ?_, ?_⟩
  · rw [List.all_eq_true]
    intro c hc
    rw [hdata] at hc
    have h1 := pyStripL_mem _ _ hc
    have h2 := (List.take_sublist _ _).subset h1
    exact (List.mem_filter.mp h2).2
  · rw [hdata]
    exact Nat.le_trans (pyStripL_length _) (List.length_take_le _ _)
  · rw [hdata]
    exact pyStripL_noEdgeSpace _

theorem downloadStep_error_eq (url : String) (tool : ToolOracle) (e : String) :
    downloadStep url tool = Except.error e → e = downloadFailText := by
  intro h
  unfold downloadStep at h
  cases hdv : download_video url tool with
  | error e2 =>
    obtain ⟨r, hr⟩ := download_video_ok url tool
    rw [hdv] at hr
    simp at hr
  | ok r =>
    rw [hdv] at h
    cases r with
    | none =>
      simp at h
      exact h.symm
    | some p =>
      by_cases hp : p = ""
      · simp [hp] at h
        exact h.symm
      · by_cases hf : tool.fileExists p = true
        · simp [hp, hf] at h
        · simp [hp, hf] at h
          exact h.symm

theorem startsWithL_of_isLitAt :
    ∀ (lit s r : List Char), isLitAt lit s = some r → startsWithL lit s = true := by
  intro lit
  induction lit with
  | nil => intro s r _; rfl
  | cons c cs ih =>
    intro s r h
    cases s with
    | nil => simp [isLitAt] at h
    | cons d ds =>
      rw [isLitAt] at h
      by_cases hc : c = d
      · rw [if_pos hc] at h
        rw [startsWithL, hc]
        simp [ih ds r h]
      · rw [if_neg hc] at h
        exact absurd h (by simp)

theorem containsSub_of_startsWith (pat s : List Char) :
    startsWithL pat s = true → containsSub pat s = true := by
  intro h
  cases s with
  | nil => exact h
  | cons c rest => rw [containsSub, h, Bool.true_or]

theorem containsSub_cons (pat rest : List Char) (c : Char) :
    containsSub pat rest = true → containsSub pat (c :: rest) = true := by
  intro h
  rw [containsSub, h, Bool.or_true]

theorem containsSub_through_lit :
    ∀ (lit s r pat : List Char), isLitAt lit s = some r →
      containsSub pat r = true → containsSub pat s = true := by
  intro lit
  induction lit with
  | nil =>
    intro s r pat h hc
    rw [isLitAt] at h
    cases h
    exact hc
  | cons c cs ih =>
    intro s r pat h hc
    cases s with
    | nil => simp [isLitAt] at h
    | cons d ds =>
      rw [isLitAt] at h
      by_cases hcd : c = d
      · rw [if_pos hcd] at h
        exact containsSub_cons pat ds d (ih ds r pat h hc)
      · rw [if_neg hcd] at h
        exact absurd h (by simp)

theorem matchCore_domain (s : List Char) :
    matchCore s = true → ∃ d, d ∈ domainsL ∧ containsSub d s = true := by
  intro h
  rw [matchCore, List.any_eq_true] at h
  obtain ⟨d, hd, hm⟩ := h
  refine ⟨d, hd, ?_⟩
  cases hl : isLitAt d s with
  | none => rw [hl] at hm; simp at hm
  | some rest => exact containsSub_of_startsWith d s (startsWithL_of_isLitAt d s rest hl)

theorem matchAfterScheme_domain (s : List Char) :
    matchAfterScheme s = true → ∃ d, d ∈ domainsL ∧ containsSub d s = true := by
  intro h
  rw [matchAfterScheme, Bool.or_eq_true] at h
  cases h with
  | inl h => exact matchCore_domain s h
  | inr h =>
    cases hl : isLitAt "www.".data s with
    | none => rw [hl] at h; simp at h
    | some rest =>
      rw [hl] at h
      obtain ⟨d, hd, hc⟩ := matchCore_domain rest h
      exact ⟨d, hd, containsSub_through_lit _ s rest d hl hc⟩

theorem matchHere_domain (s : List Char) :
    matchHere s = true → ∃ d, d ∈ domainsL ∧ containsSub d s = true := by
  intro h
  rw [matchHere, Bool.or_eq_true, Bool.or_eq_true] at h
  rcases h with (h | h) | h
  · exact matchAfterScheme_domain s h
  · cases hl : isLitAt "http://".data s with
    | none => rw [hl] at h; simp at h
    | some rest =>
      rw [hl] at h
      obtain ⟨d, hd, hc⟩ := matchAfterScheme_domain rest h
      exact ⟨d, hd, containsSub_through_lit _ s rest d hl hc⟩
  · cases hl : isLitAt "https://".data s with
    | none => rw [hl] at h; simp at h
    | some rest =>
      rw [hl] at h
      obtain ⟨d, hd, hc⟩ := matchAfterScheme_domain rest h
      exact ⟨d, hd, containsSub_through_lit _ s rest d hl hc⟩

theorem reSearch_domain :
    ∀ s : List Char, reSearch s = true → ∃ d, d ∈ domainsL ∧ containsSub d s = true := by
  intro s
  induction s with
  | nil => intro h; exact matchHere_domain [] h
  | cons c rest ih =>
    intro h
    rw [reSearch, Bool.or_eq_true] at h
    cases h with
    | inl h => exact matchHere_domain (c :: rest) h
    | inr h =>
      obtain ⟨d, hd, hc⟩ := ih h
      exact ⟨d, hd, containsSub_cons d rest c hc⟩

theorem is_valid_link_hasAnyDomain (text : String) :
    is_valid_link text = true → hasAnyDomain text = true := by
  intro h
  obtain ⟨d, hd, hc⟩ := reSearch_domain text.data h
  rw [hasAnyDomain, List.any_eq_true]
  exact ⟨d, hd, hc⟩

theorem welcome_acts_cases (uid : String) (users : List String) :
    (welcomeStep uid users).2 = [] ∨
    (welcomeStep uid users).2 = [Action.saveUsers (users ++ [uid]), Action.replyText welcomeText] := by
  rw [welcomeStep]
  split
  · exact Or.inl rfl
  · exact Or.inr rfl

theorem handle_message_guard_none (u : Update) (users : List String)
    (tool : ToolOracle) (tg : TgOracle) (hm : u.message = none) :
    handle_message u users tool tg = (users, []) := by
  unfold handle_message
  rw [hm]

theorem handle_message_guard_notext (u : Update) (msg : MessageData) (users : List String)
    (tool : ToolOracle) (tg : TgOracle) (hm : u.message = some msg) (ht : msg.text = none) :
    handle_message u users tool tg = (users, []) := by
  unfold handle_message
  rw [hm]
  simp [ht]

theorem handle_message_guard_empty (u : Update) (msg : MessageData) (users : List String)
    (tool : ToolOracle) (tg : TgOracle) (hm : u.message = some msg) (ht : msg.text = some "") :
    handle_message u users tool tg = (users, []) := by
  unfold handle_message
  rw [hm]
  simp [ht]

theorem handle_message_eq (u : Update) (msg : MessageData) (raw : String)
    (users : List String) (tool : ToolOracle) (tg : TgOracle)
    (hm : u.message = some msg) (ht : msg.text = some raw) (hr : raw ≠ "") :
    handle_message u users tool tg = handle_text msg raw u.userId users tool tg := by
  unfold handle_message
  rw [hm]
  simp [ht, hr]

theorem handle_text_invalid (msg : MessageData) (raw : String) (userId : Nat)
    (users : List String) (tool : ToolOracle) (tg : TgOracle)
    (hv : is_valid_link (pyStrip raw) = false) :
    handle_text msg raw userId users tool tg =
      ((welcomeStep (toString userId) users).1,
       (welcomeStep (toString userId) users).2 ++ [Action.replyText invalidLinkText]) := by
  simp [handle_text, hv]

theorem handle_text_dlfail (msg : MessageData) (raw : String) (userId : Nat)
    (users : List String) (tool : ToolOracle) (tg : TgOracle) (e : String)
    (hv : is_valid_link (pyStrip raw) = true)
    (hd : downloadStep (pyStrip raw) tool = Except.error e) :
    handle_text msg raw userId users tool tg =
      ((welcomeStep (toString userId) users).1,
       (welcomeStep (toString userId) users).2 ++
         [Action.replyText processingText, Action.downloadAttempt (pyStrip raw),
          Action.replyText (downloadErrorHead ++ downloadFailText)]) := by
  have he : e = downloadFailText := downloadStep_error_eq _ _ _ hd
  subst he
  simp [handle_text, hv, hd]

theorem handle_text_dlok (msg : MessageData) (raw : String) (userId : Nat)
    (users : List String) (tool : ToolOracle) (tg : TgOracle) (p : String)
    (hv : is_valid_link (pyStrip raw) = true)
    (hd : downloadStep (pyStrip raw) tool = Except.ok p) :
    handle_text msg raw userId users tool tg =
      ((welcomeStep (toString userId) users).1,
       (welcomeStep (toString userId) users).2 ++
         [Action.replyText processingText, Action.downloadAttempt (pyStrip raw)] ++
         sendStep p (spoiler_in_message msg.entities) tg ++
         [Action.deleteProcessing]) := by
  simp [handle_text, hv, hd]

theorem valid_link_true_of_not_false (s : String) (h : ¬ is_valid_link s = false) :
    is_valid_link s = true := by
  revert h
  cases is_valid_link s <;> simp

theorem hm_no_remove_transcode (u : Update) (users : List String)
    (tool : ToolOracle) (tg : TgOracle) :
    ((handle_message u users tool tg).2.any isRemoveFile = false) ∧
    ((handle_message u users tool tg).2.any isTranscode = false) := by
  rcases hu : u.message with _ | msg
  · rw [handle_message_guard_none u users tool tg hu]
    simp
  rcases ht : msg.text with _ | raw
  · rw [handle_message_guard_notext u msg users tool tg hu ht]
    simp
  by_cases hr : raw = ""
  · subst hr
    rw [handle_message_guard_empty u msg users tool tg hu ht]
    simp
  rw [handle_message_eq u msg raw users tool tg hu ht hr]
  by_cases hv : is_valid_link (pyStrip raw) = false
  · rw [handle_text_invalid msg raw u.userId users tool tg hv]
    rcases welcome_acts_cases (toString u.userId) users with hw | hw <;>
      simp [hw, isRemoveFile, isTranscode]
  have hv' := valid_link_true_of_not_false _ hv
  cases hd : downloadStep (pyStrip raw) tool with
  | error e =>
    rw [handle_text_dlfail msg raw u.userId users tool tg e hv' hd]
    rcases welcome_acts_cases (toString u.userId) users with hw | hw <;>
      simp [hw, isRemoveFile, isTranscode]
  | ok p =>
    rw [handle_text_dlok msg raw u.userId users tool tg p hv' hd]
    rcases welcome_acts_cases (toString u.userId) users with hw | hw <;>
      cases hs : tg.sendRaises <;>
      simp [hw, sendStep, hs, isRemoveFile, isTranscode]

theorem hm_send_implies_delete (u : Update) (users : List String)
    (tool : ToolOracle) (tg : TgOracle) :
    (handle_message u users tool tg).2.any isSendVideo = true →
    Action.deleteProcessing ∈ (handle_message u users tool tg).2 := by
  intro h
  rcases hu : u.message with _ | msg
  · rw [handle_message_guard_none u users tool tg hu] at h
    simp at h
  rcases ht : msg.text with _ | raw
  · rw [handle_message_guard_notext u msg users tool tg hu ht] at h
    simp at h
  by_cases hr : raw = ""
  · subst hr
    rw [handle_message_guard_empty u msg users tool tg hu ht] at h
    simp at h
  rw [handle_message_eq u msg raw users tool tg hu ht hr] at h ⊢
  by_cases hv : is_valid_link (pyStrip raw) = false
  · rw [handle_text_invalid msg raw u.userId users tool tg hv] at h
    rcases welcome_acts_cases (toString u.userId) users with hw | hw <;>
      simp [hw, isSendVideo] at h
  have hv' := valid_link_true_of_not_false _ hv
  cases hd : downloadStep (pyStrip raw) tool with
  | error e =>
    rw [handle_text_dlfail msg raw u.userId users tool tg e hv' hd] at h
    rcases welcome_acts_cases (toString u.userId) users with hw | hw <;>
      simp [hw, isSendVideo] at h
  | ok p =>
    rw [handle_text_dlok msg raw u.userId users tool tg p hv' hd]
    simp

/-- C1 (counterexample): a concrete message reaches the upload stage — both
when send_video succeeds and when it raises — yet the trace contains no
file-deletion effect: the downloaded artifact is not removed. -/
theorem c1_counterexample :
    ((handle_message cexUpdate ["5"] cexToolOk cexTg).2.any isSendVideo = true) ∧
    ((handle_message cexUpdate ["5"] cexToolOk cexTg).2.any isRemoveFile = false) ∧
    ((handle_message cexUpdate ["5"] cexToolOk cexTgRaise).2.any isSendVideo = true) ∧
    ((handle_message cexUpdate ["5"] cexToolOk cexTgRaise).2.any isRemoveFile = false) :=
  ⟨by decide, by decide, by decide, by decide⟩

/-- C1 (amended): the handler never deletes the local artifact file — no run
of handle_message emits a file-removal effect; what the guaranteed-run block
does guarantee is that whenever the upload stage is reached the
processing-message delete call is issued. -/
theorem c1_no_artifact_delete (u : Update) (users : List String)
    (tool : ToolOracle) (tg : TgOracle) :
    ((handle_message u users tool tg).2.any isRemoveFile = false) ∧
    ((handle_message u users tool tg).2.any isSendVideo = true →
      Action.deleteProcessing ∈ (handle_message u users tool tg).2) :=
  ⟨(hm_no_remove_transcode u users tool tg).1, hm_send_implies_delete u users tool tg⟩

theorem c1_witness :
    ((handle_message cexUpdate ["5"] cexToolOk cexTg).2.any isSendVideo = true) ∧
    Action.deleteProcessing ∈ (handle_message cexUpdate ["5"] cexToolOk cexTg).2 :=
  ⟨by decide, (c1_no_artifact_delete cexUpdate ["5"] cexToolOk cexTg).2 (by decide)⟩

/-- C2 (counterexample): a concrete run downloads a file whose size the
filesystem reports as 60000000 bytes (above the 50 MB threshold) and uploads
it, yet no transcoder invocation appears in the trace. -/
theorem c2_counterexample :
    cexToolOk.fileSize "downloads/vid.mp4" > 50 * 1024 * 1024 ∧
    Action.sendVideo "downloads/vid.mp4" false true ∈
      (handle_message cexUpdate ["5"] cexToolOk cexTg).2 ∧
    ((handle_message cexUpdate ["5"] cexToolOk cexTg).2.any isTranscode = false) :=
  ⟨by decide, by decide, by decide⟩

/-- C2 (amended): the pipeline in src/src/main.py never invokes an external
transcoder: no run of handle_message emits a transcode effect, whatever the
file size. -/
theorem c2_never_transcodes (u : Update) (users : List String)
    (tool : ToolOracle) (tg : TgOracle) :
    (handle_message u users tool tg).2.any isTranscode = false :=
  (hm_no_remove_transcode u users tool tg).2

/-- C4 (counterexample): the extraction tool fails with raw text "boom", the
download step fails, the handler does reply with a download error — but no
reply contains the raw tool text "boom"; the reply embeds only the locally
raised ValueError text. -/
theorem c4_counterexample :
    cexToolFail.extractInfo = Except.error "boom" ∧
    downloadStep (pyStrip "https://youtu.be/abc") cexToolFail = Except.error downloadFailText ∧
    ((handle_message cexUpdate ["5"] cexToolFail cexTg).2.any (replyMentions "boom") = false) ∧
    Action.replyText (downloadErrorHead ++ downloadFailText) ∈
      (handle_message cexUpdate ["5"] cexToolFail cexTg).2 :=
  ⟨rfl, rfl, by decide, by decide⟩

/-- C4 (amended): when the download step fails, the only exception text that
can surface is the locally raised ValueError text (download_video swallows
the extraction tool's exception and returns None), and the handler replies
with the fixed error string built from it. -/
theorem c4_download_error_reply (u : Update) (users : List String)
    (tool : ToolOracle) (tg : TgOracle)
    (msg : MessageData) (raw : String) (e : String)
    (hm : u.message = some msg) (ht : msg.text = some raw) (hr : raw ≠ "")
    (hv : is_valid_link (pyStrip raw) = true)
    (hd : downloadStep (pyStrip raw) tool = Except.error e) :
    e = downloadFailText ∧
    Action.replyText (downloadErrorHead ++ downloadFailText) ∈
      (handle_message u users tool tg).2 := by
  refine ⟨downloadStep_error_eq _ _ _ hd, ?_⟩
  rw [handle_message_eq u msg raw users tool tg hm ht hr,
      handle_text_dlfail msg raw u.userId users tool tg e hv hd]
  rcases welcome_acts_cases (toString u.userId) users with hw | hw <;> simp [hw]

theorem c4_witness :
    downloadStep (pyStrip "https://youtu.be/abc") cexToolFail = Except.error downloadFailText ∧
    Action.replyText (downloadErrorHead ++ downloadFailText) ∈
      (handle_message cexUpdate ["5"] cexToolFail cexTg).2 :=
  ⟨rfl, (c4_download_error_reply cexUpdate ["5"] cexToolFail cexTg
    ⟨some "https://youtu.be/abc", none⟩ "https://youtu.be/abc" downloadFailText
    rfl rfl (by decide) (by decide) rfl).2⟩

/-- C8 (counterexample): a concrete run posts the processing status message,
the download step fails, and the handler returns without ever issuing the
processing-message delete. -/
theorem c8_counterexample :
    Action.replyText processingText ∈ (handle_message cexUpdate ["5"] cexToolFail cexTg).2 ∧
    Action.deleteProcessing ∉ (handle_message cexUpdate ["5"] cexToolFail cexTg).2 :=
  ⟨by decide, by decide⟩

/-- C8 (amended): the processing status message is deleted in the
guaranteed-run block whenever the upload stage is reached, whatever the
upload outcome; but when the download step fails the handler returns early
and the delete call is never issued. -/
theorem c8_processing_delete (u : Update) (users : List String)
    (tool : ToolOracle) (tg : TgOracle) :
    ((handle_message u users tool tg).2.any isSendVideo = true →
      Action.deleteProcessing ∈ (handle_message u users tool tg).2) ∧
    (∀ (msg : MessageData) (raw e : String),
      u.message = some msg → msg.text = some raw → raw ≠ "" →
      is_valid_link (pyStrip raw) = true →
      downloadStep (pyStrip raw) tool = Except.error e →
      Action.deleteProcessing ∉ (handle_message u users tool tg).2) := by
  constructor
  · exact hm_send_implies_delete u users tool tg
  · intro msg raw e hm ht hr hv hd
    rw [handle_message_eq u msg raw users tool tg hm ht hr,
        handle_text_dlfail msg raw u.userId users tool tg e hv hd]
    rcases welcome_acts_cases (toString u.userId) users with hw | hw <;> simp [hw]

theorem c8_witness :
    downloadStep (pyStrip "https://youtu.be/abc") cexToolFail = Except.error downloadFailText ∧
    Action.deleteProcessing ∉ (handle_message cexUpdate ["5"] cexToolFail cexTg).2 :=
  ⟨rfl, (c8_processing_delete cexUpdate ["5"] cexToolFail cexTg).2
    ⟨some "https://youtu.be/abc", none⟩ "https://youtu.be/abc" downloadFailText
    rfl rfl (by decide) (by decide) rfl⟩

/-- C5: the link validator only accepts texts containing one of the four
listed hostnames (so arbitrary strings containing none are rejected), it
accepts each listed hostname written as a link, and on rejection the handler
replies with the invalid-link warning and returns without attempting a
download. -/
theorem c5_validator :
    (∀ text : String, is_valid_link text = true → hasAnyDomain text = true) ∧
    (∀ d, d ∈ domainStrings → is_valid_link ("https://www." ++ d ++ "/abc") = true) ∧
    (∀ (u : Update) (msg : MessageData) (raw : String) (users : List String)
       (tool : ToolOracle) (tg : TgOracle),
      u.message = some msg → msg.text = some raw → raw ≠ "" →
      is_valid_link (pyStrip raw) = false →
      Action.replyText invalidLinkText ∈ (handle_message u users tool tg).2 ∧
      (handle_message u users tool tg).2.any isDownloadAttempt = false) := by
  refine ⟨fun text h => is_valid_link_hasAnyDomain text h, ?_, ?_⟩
  · intro d hd
    simp only [domainStrings, List.mem_cons, List.not_mem_nil, or_false] at hd
    rcases hd with rfl | rfl | rfl | rfl <;> decide
  · intro u msg raw users tool tg hm ht hr hv
    rw [handle_message_eq u msg raw users tool tg hm ht hr,
        handle_text_invalid msg raw u.userId users tool tg hv]
    rcases welcome_acts_cases (toString u.userId) users with hw | hw <;>
      refine ⟨?_, ?_⟩ <;> simp [hw, isDownloadAttempt]

theorem c5_witness :
    is_valid_link ("https://www." ++ "instagram.com" ++ "/abc") = true ∧
    is_valid_link (pyStrip "hello world") = false ∧
    Action.replyText invalidLinkText ∈
      (handle_message cexUpdateInvalid ["5"] cexToolOk cexTg).2 ∧
    ((handle_message cexUpdateInvalid ["5"] cexToolOk cexTg).2.any isDownloadAttempt = false) := by
  refine ⟨c5_validator.2.1 "instagram.com" (by decide), by decide, ?_, ?_⟩
  · exact (c5_validator.2.2 cexUpdateInvalid ⟨some "hello world", none⟩ "hello world"
      ["5"] cexToolOk cexTg rfl rfl (by decide) (by decide)).1
  · exact (c5_validator.2.2 cexUpdateInvalid ⟨some "hello world", none⟩ "hello world"
      ["5"] cexToolOk cexTg rfl rfl (by decide) (by decide)).2

/-- C7: spoiler_in_message is true iff the entity list is present and holds a
spoiler-type entity (absent or empty lists give false), and the handler
passes exactly this flag to the send_video call. -/
theorem c7_spoiler :
    (∀ ents : Option (List MessageEntity),
      spoiler_in_message ents = true ↔
        ∃ l, ents = some l ∧ ∃ e, e ∈ l ∧ e.type = MEntityType.spoiler) ∧
    (∀ (u : Update) (msg : MessageData) (raw p : String) (users : List String)
       (tool : ToolOracle) (tg : TgOracle),
      u.message = some msg → msg.text = some raw → raw ≠ "" →
      is_valid_link (pyStrip raw) = true →
      downloadStep (pyStrip raw) tool = Except.ok p →
      Action.sendVideo p (spoiler_in_message msg.entities) true ∈
        (handle_message u users tool tg).2) := by
  constructor
  · intro ents
    cases ents with
    | none => simp [spoiler_in_message]
    | some es =>
      cases es with
      | nil => simp [spoiler_in_message]
      | cons a as => simp [spoiler_in_message, List.any_eq_true]
  · intro u msg raw p users tool tg hm ht hr hv hd
    rw [handle_message_eq u msg raw users tool tg hm ht hr,
        handle_text_dlok msg raw u.userId users tool tg p hv hd]
    rcases welcome_acts_cases (toString u.userId) users with hw | hw <;>
      cases hs : tg.sendRaises <;> simp [hw, sendStep, hs]

theorem c7_witness :
    spoiler_in_message (some [⟨MEntityType.spoiler⟩]) = true ∧
    spoiler_in_message none = false ∧
    downloadStep (pyStrip "https://youtu.be/abc") cexToolOk = Except.ok "downloads/vid.mp4" ∧
    Action.sendVideo "downloads/vid.mp4" true true ∈
      (handle_message cexUpdateSpoiler ["5"] cexToolOk cexTg).2 := by
  refine ⟨by decide, by decide, rfl, ?_⟩
  exact c7_spoiler.2 cexUpdateSpoiler
    ⟨some "https://youtu.be/abc", some [⟨MEntityType.spoiler⟩]⟩ "https://youtu.be/abc"
    "downloads/vid.mp4" ["5"] cexToolOk cexTg rfl rfl (by decide) (by decide) rfl

theorem welcome_ne_invalid : welcomeText ≠ invalidLinkText := by decide

theorem welcome_ne_processing : welcomeText ≠ processingText := by decide

theorem welcome_ne_dlerr : welcomeText ≠ downloadErrorHead ++ downloadFailText := by decide

theorem welcome_ne_senderr : welcomeText ≠ sendErrorText := by decide

theorem hm_first_contact (u : Update) (uid : Nat) (users : List String)
    (tool : ToolOracle) (tg : TgOracle)
    (hg : goodFrom uid u) (hn : toString uid ∉ users) :
    (handle_message u users tool tg).1 = users ++ [toString uid] ∧
    Action.saveUsers (users ++ [toString uid]) ∈ (handle_message u users tool tg).2 ∧
    Action.replyText welcomeText ∈ (handle_message u users tool tg).2 := by
  obtain ⟨huid, md, raw, hm, ht, hr⟩ := hg
  subst huid
  rw [handle_message_eq u md raw users tool tg hm ht hr]
  have hw : welcomeStep (toString u.userId) users =
      (users ++ [toString u.userId],
       [Action.saveUsers (users ++ [toString u.userId]), Action.replyText welcomeText]) := by
    rw [welcomeStep, if_neg hn]
  by_cases hv : is_valid_link (pyStrip raw) = false
  · rw [handle_text_invalid md raw u.userId users tool tg hv, hw]
    exact ⟨rfl, by simp, by simp⟩
  · have hv' := valid_link_true_of_not_false _ hv
    cases hd : downloadStep (pyStrip raw) tool with
    | error e =>
      rw [handle_text_dlfail md raw u.userId users tool tg e hv' hd, hw]
      exact ⟨rfl, by simp, by simp⟩
    | ok p =>
      rw [handle_text_dlok md raw u.userId users tool tg p hv' hd, hw]
      exact ⟨rfl, by simp, by simp⟩

theorem hm_seen (u : Update) (users : List String) (tool : ToolOracle) (tg : TgOracle)
    (hs : toString u.userId ∈ users) :
    (handle_message u users tool tg).1 = users ∧
    ((handle_message u users tool tg).2.any isSaveUsers = false) ∧
    Action.replyText welcomeText ∉ (handle_message u users tool tg).2 := by
  rcases hu : u.message with _ | msg
  · rw [handle_message_guard_none u users tool tg hu]
    exact ⟨rfl, by simp, by simp⟩
  rcases ht : msg.text with _ | raw
  · rw [handle_message_guard_notext u msg users tool tg hu ht]
    exact ⟨rfl, by simp, by simp⟩
  by_cases hr : raw = ""
  · subst hr
    rw [handle_message_guard_empty u msg users tool tg hu ht]
    exact ⟨rfl, by simp, by simp⟩
  rw [handle_message_eq u msg raw users tool tg hu ht hr]
  have hw : welcomeStep (toString u.userId) users = (users, []) := by
    rw [welcomeStep, if_pos hs]
  by_cases hv : is_valid_link (pyStrip raw) = false
  · rw [handle_text_invalid msg raw u.userId users tool tg hv, hw]
    exact ⟨rfl, by simp [isSaveUsers], by simp [welcome_ne_invalid]⟩
  · have hv' := valid_link_true_of_not_false _ hv
    cases hd : downloadStep (pyStrip raw) tool with
    | error e =>
      rw [handle_text_dlfail msg raw u.userId users tool tg e hv' hd, hw]
      exact ⟨rfl, by simp [isSaveUsers], by simp [welcome_ne_processing, welcome_ne_dlerr]⟩
    | ok p =>
      rw [handle_text_dlok msg raw u.userId users tool tg p hv' hd, hw]
      refine ⟨rfl, ?_, ?_⟩ <;>
        cases hsr : tg.sendRaises <;>
        simp [sendStep, hsr, isSaveUsers, welcome_ne_processing, welcome_ne_senderr]

theorem runSeq_seen (uid : Nat) :
    ∀ (seq : List (Update × ToolOracle × TgOracle)) (users : List String),
      (∀ x ∈ seq, goodFrom uid x.1) → toString uid ∈ users →
      (runSeq seq users).1 = users ∧
      (∀ tr ∈ (runSeq seq users).2,
        tr.any isSaveUsers = false ∧ Action.replyText welcomeText ∉ tr) := by
  intro seq
  induction seq with
  | nil =>
    intro users hg hm
    exact ⟨rfl, by simp [runSeq]⟩
  | cons x rest ih =>
    intro users hg hm
    obtain ⟨u, tool, tg⟩ := x
    have hgu : goodFrom uid u := hg (u, tool, tg) (by simp)
    have hm' : toString u.userId ∈ users := by rw [hgu.1]; exact hm
    obtain ⟨h1, h2, h3⟩ := hm_seen u users tool tg hm'
    have hrest := ih users (fun y hy => hg y (List.mem_cons_of_mem _ hy)) hm
    simp only [runSeq]
    rw [h1]
    refine ⟨hrest.1, ?_⟩
    intro tr htr
    rcases List.mem_cons.mp htr with heq | hmem
    · subst heq
      exact ⟨h2, h3⟩
    · exact hrest.2 tr hmem

/-- C6: for a user not yet in the persisted map, the first text message from
that user adds the id to the map, persists it with save_users, and sends the
welcome reply; across any further sequence of messages from the same user no
save_users call and no welcome reply ever happens again, and the final map
holds the id exactly once. -/
theorem c6_first_contact_once
    (uid : Nat) (u : Update) (tool : ToolOracle) (tg : TgOracle)
    (rest : List (Update × ToolOracle × TgOracle)) (users0 : List String)
    (hgu : goodFrom uid u) (hgr : ∀ x ∈ rest, goodFrom uid x.1)
    (h0 : toString uid ∉ users0) :
    Action.saveUsers (users0 ++ [toString uid]) ∈ (handle_message u users0 tool tg).2 ∧
    Action.replyText welcomeText ∈ (handle_message u users0 tool tg).2 ∧
    (∀ tr ∈ (runSeq rest (handle_message u users0 tool tg).1).2,
      tr.any isSaveUsers = false ∧ Action.replyText welcomeText ∉ tr) ∧
    (runSeq rest (handle_message u users0 tool tg).1).1.count (toString uid) = 1 := by
  obtain ⟨h1, h2, h3⟩ := hm_first_contact u uid users0 tool tg hgu h0
  have hmem : toString uid ∈ (handle_message u users0 tool tg).1 := by
    rw [h1]
    exact List.mem_append_right _ (by simp)
  obtain ⟨hs1, hs2⟩ := runSeq_seen uid rest (handle_message u users0 tool tg).1 hgr hmem
  refine ⟨h2, h3, hs2, ?_⟩
  rw [hs1, h1, List.count_append, List.count_eq_zero.mpr h0]
  simp

theorem c6_witness :
    goodFrom 5 cexUpdate ∧
    toString 5 ∉ (["7"] : List String) ∧
    Action.saveUsers (["7"] ++ [toString 5]) ∈ (handle_message cexUpdate ["7"] cexToolOk cexTg).2 ∧
    Action.replyText welcomeText ∈ (handle_message cexUpdate ["7"] cexToolOk cexTg).2 ∧
    (∀ tr ∈ (runSeq [(cexUpdate, cexToolOk, cexTg)]
        (handle_message cexUpdate ["7"] cexToolOk cexTg).1).2,
      tr.any isSaveUsers = false ∧ Action.replyText welcomeText ∉ tr) ∧
    (runSeq [(cexUpdate, cexToolOk, cexTg)]
        (handle_message cexUpdate ["7"] cexToolOk cexTg).1).1.count (toString 5) = 1 := by
  have hg : goodFrom 5 cexUpdate :=
    ⟨rfl, ⟨some "https://youtu.be/abc", none⟩, "https://youtu.be/abc", rfl, rfl, by decide⟩
  have hr : ∀ x ∈ [(cexUpdate, cexToolOk, cexTg)], goodFrom 5 x.1 := by
    intro x hx
    simp only [List.mem_singleton] at hx
    subst hx
    exact hg
  have h := c6_first_contact_once 5 cexUpdate cexToolOk cexTg
    [(cexUpdate, cexToolOk, cexTg)] ["7"] hg hr (by decide)
  exact ⟨hg, by decide, h.1, h.2.1, h.2.2.1, h.2.2.2⟩

/-- C3 (spec-modelled): a sender or chat present in the deny lists is
silently dropped in group chats and answered with a denial notice in private
chats; everyone else continues processing. -/
theorem c3_permission_gate (username : String) (chatId : Int)
    (denyUsernames : List String) (denyChatIds : List Int) (isGroupChat : Bool) :
    ((username ∈ denyUsernames ∨ chatId ∈ denyChatIds) →
      permission_gate username chatId denyUsernames denyChatIds isGroupChat =
        (if isGroupChat then GateDecision.dropSilently else GateDecision.replyDenialNotice)) ∧
    (username ∉ denyUsernames → chatId ∉ denyChatIds →
      permission_gate username chatId denyUsernames denyChatIds isGroupChat =
        GateDecision.continueProcessing) := by
  constructor
  · intro h
    rw [permission_gate, if_pos h]
  · intro h1 h2
    have hn : ¬(username ∈ denyUsernames ∨ chatId ∈ denyChatIds) := by
      rintro (h | h)
      · exact h1 h
      · exact h2 h
    rw [permission_gate, if_neg hn]

theorem c3_witness :
    (("alice" ∈ (["alice"] : List String)) ∨ ((5 : Int) ∈ ([] : List Int))) ∧
    permission_gate "alice" 5 ["alice"] [] true = GateDecision.dropSilently ∧
    permission_gate "alice" 5 ["alice"] [] false = GateDecision.replyDenialNotice ∧
    ("bob" ∉ (["alice"] : List String)) ∧
    permission_gate "bob" 5 ["alice"] [] true = GateDecision.continueProcessing := by
  refine ⟨Or.inl (by decide), ?_, ?_, by decide, ?_⟩
  · exact (c3_permission_gate "alice" 5 ["alice"] [] true).1 (Or.inl (by decide))
  · exact (c3_permission_gate "alice" 5 ["alice"] [] false).1 (Or.inl (by decide))
  · exact (c3_permission_gate "bob" 5 ["alice"] [] true).2 (by decide) (by decide)

end WebVideoTg
